import Mathlib

/-!
Shallow embedding of `mmflow/apis/train.py`: the `set_random_seed` helper and
the `train_model` launcher. Configuration values are modelled as Python-style
tagged values; external collaborators (dataset/dataloader/optimizer/runner/hook
builders) are modelled symbolically by records of the arguments the launcher
passes them, and `train_model` returns a trace of its observable decisions.
-/

set_option autoImplicit false

namespace MMFlow

/-- Python-style values appearing in configuration mappings. `pynone` is
Python `None`. -/
inductive Val where
  | pynone : Val
  | bool : Bool → Val
  | nat : Nat → Val
  | str : String → Val
  | list : List Val → Val
  | dict : List (String × Val) → Val
deriving Repr

mutual

/-- Structural Boolean equality on values, modelling Python `==` on the
configuration fragment used here (no cross-type coercions arise). -/
def Val.beq : Val → Val → Bool
  | .pynone, .pynone => true
  | .bool a, .bool b => a == b
  | .nat a, .nat b => a == b
  | .str a, .str b => a == b
  | .list a, .list b => Val.beqL a b
  | .dict a, .dict b => Val.beqD a b
  | _, _ => false

/-- Elementwise `Val.beq` on lists of values. -/
def Val.beqL : List Val → List Val → Bool
  | [], [] => true
  | a :: as, b :: bs => Val.beq a b && Val.beqL as bs
  | _, _ => false

/-- Elementwise `Val.beq` on association lists. -/
def Val.beqD : List (String × Val) → List (String × Val) → Bool
  | [], [] => true
  | (k, a) :: as, (l, b) :: bs => k == l && Val.beq a b && Val.beqD as bs
  | _, _ => false

end

/-- Python truthiness of a value. -/
def Val.truthy : Val → Bool
  | .pynone => false
  | .bool b => b
  | .nat n => decide (n ≠ 0)
  | .str s => decide (s ≠ "")
  | .list l => !l.isEmpty
  | .dict d => !d.isEmpty

/-- Python truthiness of an optional value (a missing key behaves like `None`). -/
def truthyOpt : Option Val → Bool
  | Option.none => false
  | Option.some v => v.truthy

/-- A Python `dict` with string keys, as an association list without duplicate
keys by construction of the operations below. -/
abbrev Dict := List (String × Val)

/-- Membership test, Python `k in d`. -/
def dictHasKey (d : Dict) (k : String) : Bool :=
  d.any (fun p => p.1 == k)

/-- Lookup, Python `d[k]` returning `none` on a missing key. -/
def dictGet? (d : Dict) (k : String) : Option Val :=
  (d.find? (fun p => p.1 == k)).map (fun p => p.2)

/-- Lookup with default, Python `d.get(k, v)`. -/
def dictGetD (d : Dict) (k : String) (v : Val) : Val :=
  (dictGet? d k).getD v

/-- Assignment, Python `d[k] = v`: overwrite in place or append at the end. -/
def dictSet (d : Dict) (k : String) (v : Val) : Dict :=
  if dictHasKey d k then d.map (fun p => if p.1 == k then (k, v) else p)
  else d ++ [(k, v)]

/-- Key removal, Python `d.pop(k, default)` effect on the dictionary. -/
def dictErase (d : Dict) (k : String) : Dict :=
  d.filter (fun p => ¬ p.1 == k)

/-- True when no key of `a` occurs in `b`; double keyword expansion
`f(**a, **b)` raises `TypeError` otherwise. -/
def dictKeysDisjoint (a b : Dict) : Bool :=
  a.all (fun p => ¬ dictHasKey b p.1)

/-!
Random-seed helper. The process-wide random-generator state touched by
`set_random_seed` is modelled explicitly: one abstract generator state per
seeded source (seeding a source makes its state a function of the seed alone,
modelled as the seed value itself), plus the two cuDNN backend flags.
-/

/-- The process-wide state touched by `set_random_seed`: the `random`,
`numpy`, torch CPU and torch CUDA generator states, and the two cuDNN flags. -/
structure RandomState where
  random_state : Nat
  np_random_state : Nat
  torch_state : Nat
  cuda_states : Nat
  cudnn_deterministic : Bool
  cudnn_benchmark : Bool
deriving DecidableEq, Repr

/-- Embedding of `set_random_seed(seed, deterministic)`: seed the four
generator sources; when `deterministic` is true additionally force
`cudnn.deterministic = True` and `cudnn.benchmark = False`. -/
def set_random_seed (seed : Nat) (deterministic : Bool) (st : RandomState) :
    RandomState :=
  let st1 : RandomState :=
    { st with
      random_state := seed
      np_random_state := seed
      torch_state := seed
      cuda_states := seed }
  if deterministic then
    { st1 with cudnn_deterministic := true, cudnn_benchmark := false }
  else st1

/-!
Configuration model for `train_model`. Fields mirror the keys `train.py`
reads; keys that the function reads through `cfg.get(..)` or that may be
absent are `Option`-valued, with `none` standing for an absent key or an
explicit Python `None` (the two are indistinguishable to this function).
-/

/-- The `cfg.data` section: the three sub-dictionaries `train_model` reads. -/
structure DataCfg where
  train_dataloader : Dict
  val : Dict
  val_dataloader : Dict
deriving Repr

/-- The configuration object passed to `train_model`. -/
structure Config where
  log_level : Val
  gpu_ids : List Nat
  seed : Val
  data : DataCfg
  optimizer : Val
  optimizer_config : Dict
  total_iters : Nat
  work_dir : Val
  runner : Option Dict
  fp16 : Option Dict
  lr_config : Val
  checkpoint_config : Val
  log_config : Val
  momentum_config : Option Val
  find_unused_parameters : Option Bool
  evaluation : Option Dict
  custom_hooks : Option Val
  resume_from : Option Val
  load_from : Option Val
  workflow : Val
deriving Repr

/-- Python exceptions `train_model` can raise at this layer. -/
inductive PyErr where
  | assertionError : String → PyErr
  | typeError : String → PyErr
  | keyError : String → PyErr
  | attributeError : String → PyErr
deriving DecidableEq, Repr

/-- The `dataset` argument of `train_model`: a single dataset or a sequence. -/
inductive DatasetArg where
  | single : Val → DatasetArg
  | many : List Val → DatasetArg
deriving Repr

/-- Embedding of `dataset if isinstance(dataset, (list, tuple)) else [dataset]`. -/
def normalize_datasets : DatasetArg → List Val
  | .single d => [d]
  | .many ds => ds

/-- A dataset produced by the external `build_dataset`, recorded symbolically
as the spec and default arguments the builder was given. -/
structure BuiltDataset where
  spec : Val
  default_args : Option Dict
deriving Repr

/-- Modelled from the spec: built datasets expose a `dataset_name` attribute
(the external dataset classes are not part of this file); it is modelled
symbolically as a value determined by the build spec of the dataset. -/
def BuiltDataset.dataset_name (d : BuiltDataset) : Val :=
  Val.list [Val.str "dataset_name", d.spec]

/-- A dataset handle passed to the dataloader builder: either a training
dataset object given by the caller or a validation dataset built here. -/
inductive DSHandle where
  | given : Val → DSHandle
  | built : BuiltDataset → DSHandle
deriving Repr

/-- A data loader produced by the external `build_dataloader`, recorded
symbolically as the arguments the builder was given (`none` for an argument
left to the default of the builder). -/
structure Loader where
  dataset : DSHandle
  num_gpus : Option Nat
  dist : Bool
  seed : Option Val
  opts : Dict
deriving Repr

/-- True when `cfg.data.train_dataloader` avoids the keyword names the call
site also passes explicitly; `build_dataloader(ds, num_gpus=.., dist=..,
seed=.., **cfg.data.train_dataloader)` raises `TypeError` otherwise. -/
def train_loader_kw_ok (opts : Dict) : Bool :=
  !dictHasKey opts "num_gpus" && !dictHasKey opts "dist" && !dictHasKey opts "seed"

/-- The loaders the training list comprehension hands back: one per dataset,
each built with the per-GPU count, the distributed flag, the seed, and the
`train_dataloader` options. -/
def train_loaders_of (ds : List Val) (cfg : Config) (distributed : Bool) : List Loader :=
  ds.map (fun d =>
    { dataset := DSHandle.given d
      num_gpus := Option.some cfg.gpu_ids.length
      dist := distributed
      seed := Option.some cfg.seed
      opts := cfg.data.train_dataloader })

/-- Embedding of the training data-loader list comprehension. -/
def build_train_loaders (ds : List Val) (cfg : Config) (distributed : Bool) :
    Except PyErr (List Loader) :=
  if train_loader_kw_ok cfg.data.train_dataloader then
    Except.ok (train_loaders_of ds cfg distributed)
  else Except.error (PyErr.typeError "got multiple values for keyword argument")

/-- The runner spec `train_model` synthesizes when `cfg.runner` is absent. -/
def default_runner_spec (total_iters : Nat) : Dict :=
  [("type", Val.str "IterBasedRunner"), ("max_iters", Val.nat total_iters)]

/-- The deprecation warning emitted when `cfg.runner` is absent. -/
def runner_deprecation_msg : String :=
  "config is now expected to have a `runner` section, please set `runner` in your config."

/-- Embedding of the `runner` default-filling block: returns the updated
configuration, the runner spec in use, and the warnings emitted. -/
def runner_fill (cfg : Config) : Config × Dict × List String :=
  match cfg.runner with
  | Option.none =>
      ({ cfg with runner := Option.some (default_runner_spec cfg.total_iters) },
       default_runner_spec cfg.total_iters, [runner_deprecation_msg])
  | Option.some r => (cfg, r, [])

/-- The configuration after the `runner` default-filling block. -/
def cfg_after_fill (cfg : Config) : Config :=
  (runner_fill cfg).1

/-- The runner spec in force after the `runner` default-filling block. -/
def runner_after_fill (cfg : Config) : Dict :=
  (runner_fill cfg).2.1

/-- The optimizer-hook variant registered through `register_training_hooks`. -/
inductive OptHookChoice where
  | fp16Hook : Dict → OptHookChoice
  | plainHook : Dict → OptHookChoice
  | rawCfg : Dict → OptHookChoice
deriving Repr

/-- True when the keyword expansion `Fp16OptimizerHook(**optimizer_config,
**fp16_cfg, distributed=..)` raises no duplicate-keyword `TypeError`. -/
def fp16_kwargs_ok (oc f : Dict) : Bool :=
  dictKeysDisjoint oc f && !dictHasKey oc "distributed" && !dictHasKey f "distributed"

/-- True when the fp16 block of `train_model` raises no `TypeError` for this
configuration (vacuously true when `fp16` is absent). -/
def fp16_merge_ok (cfg : Config) : Bool :=
  match cfg.fp16 with
  | Option.none => true
  | Option.some f => fp16_kwargs_ok cfg.optimizer_config f

/-- Embedding of the fp16 / optimizer-hook selection block. -/
def select_optimizer_config (cfg : Config) (distributed : Bool) :
    Except PyErr OptHookChoice :=
  match cfg.fp16 with
  | Option.some fp16_cfg =>
      if fp16_kwargs_ok cfg.optimizer_config fp16_cfg then
        Except.ok (OptHookChoice.fp16Hook
          (cfg.optimizer_config ++ fp16_cfg ++ [("distributed", Val.bool distributed)]))
      else Except.error (PyErr.typeError "got multiple values for keyword argument")
  | Option.none =>
      if distributed && !dictHasKey cfg.optimizer_config "type" then
        Except.ok (OptHookChoice.plainHook cfg.optimizer_config)
      else
        Except.ok (OptHookChoice.rawCfg cfg.optimizer_config)

/-- The arguments of the single `register_training_hooks` call. -/
structure TrainingHooksReg where
  lr_config : Val
  optimizer_config : OptHookChoice
  checkpoint_config : Val
  log_config : Val
  momentum_config : Option Val
deriving Repr

/-- The evaluation hook registration: which variant, with which arguments,
at which priority. -/
structure EvalReg where
  dist_variant : Bool
  loaders : List Loader
  is_list_arg : Bool
  eval_cfg : Dict
  dataset_name : Val
  priority : Val
deriving Repr

/-- What the evaluation block did: datasets and loaders built, the final
evaluation dictionary, the `dataset_name` argument, the new value of the
configuration `evaluation` field (mutated through the alias returned by
`cfg.get`), the hook registration if reached, and the error if any. -/
structure EvalOut where
  datasets : List BuiltDataset
  loaders : List Loader
  eval_cfg : Dict
  name_arg : Val
  new_evaluation : Option Dict
  reg : Option EvalReg
  err : Option PyErr
deriving Repr

/-- The evaluation block when `validate` is false: nothing happens. -/
def eval_skip (cfg : Config) : EvalOut :=
  { datasets := []
    loaders := []
    eval_cfg := []
    name_arg := Val.pynone
    new_evaluation := cfg.evaluation
    reg := Option.none
    err := Option.none }

/-- A validation data loader: `build_dataloader(ds, **cfg.data.val_dataloader,
dist=distributed)`. -/
def build_val_loader (d : BuiltDataset) (cfg : Config) (distributed : Bool) : Loader :=
  { dataset := DSHandle.built d
    num_gpus := Option.none
    dist := distributed
    seed := Option.none
    opts := cfg.data.val_dataloader }

/-- Embedding of the `if validate:` block. A non-list `datasets` entry is
treated as non-iterable here (strings, which Python would iterate
characterwise, do not arise as `datasets` values). -/
def eval_stage (cfg : Config) (runner_spec : Dict) (distributed : Bool) : EvalOut :=
  let separate := (dictGetD cfg.data.val "separate_eval" (Val.bool false)).truthy
  let build : Except PyErr (List BuiltDataset × List Loader × Val × Bool) :=
    if separate then
      match dictGet? cfg.data.val "datasets" with
      | Option.none => Except.error (PyErr.attributeError "datasets")
      | Option.some (Val.list specs) =>
          if dictHasKey cfg.data.val_dataloader "dist" then
            Except.error (PyErr.typeError "got multiple values for keyword argument")
          else
            let ds := specs.map (fun s => BuiltDataset.mk s Option.none)
            Except.ok (ds, ds.map (fun d => build_val_loader d cfg distributed),
                       Val.list (ds.map BuiltDataset.dataset_name), true)
      | Option.some _ => Except.error (PyErr.typeError "object is not iterable")
    else
      if dictHasKey cfg.data.val_dataloader "dist" then
        Except.error (PyErr.typeError "got multiple values for keyword argument")
      else
        let d := BuiltDataset.mk (Val.dict cfg.data.val)
                   (Option.some [("test_mode", Val.bool true)])
        Except.ok ([d], [build_val_loader d cfg distributed], d.dataset_name, false)
  match build with
  | Except.error e => { eval_skip cfg with err := Option.some e }
  | Except.ok (ds, ls, names, is_list) =>
      let eval_cfg0 := cfg.evaluation.getD []
      match dictGet? runner_spec "type" with
      | Option.none =>
          { datasets := ds
            loaders := ls
            eval_cfg := eval_cfg0
            name_arg := names
            new_evaluation := cfg.evaluation
            reg := Option.none
            err := Option.some (PyErr.keyError "type") }
      | Option.some t =>
          let eval_cfg1 :=
            dictSet eval_cfg0 "by_epoch" (Val.bool (!Val.beq t (Val.str "IterBasedRunner")))
          let new_eval : Option Dict :=
            match cfg.evaluation with
            | Option.some _ => Option.some eval_cfg1
            | Option.none => Option.none
          if dictHasKey eval_cfg1 "dataset_name" then
            { datasets := ds
              loaders := ls
              eval_cfg := eval_cfg1
              name_arg := names
              new_evaluation := new_eval
              reg := Option.none
              err := Option.some (PyErr.typeError "got multiple values for keyword argument") }
          else
            { datasets := ds
              loaders := ls
              eval_cfg := eval_cfg1
              name_arg := names
              new_evaluation := new_eval
              reg := Option.some
                { dist_variant := distributed
                  loaders := ls
                  is_list_arg := is_list
                  eval_cfg := eval_cfg1
                  dataset_name := names
                  priority := Val.str "LOW" }
              err := Option.none }

/-- One custom-hook entry as registered: the spec after popping `priority`,
and the priority it is registered at. -/
def hook_entry (x : Val) : Dict × Val :=
  match x with
  | Val.dict d => (dictErase d "priority", dictGetD d "priority" (Val.str "NORMAL"))
  | _ => ([], Val.pynone)

/-- Embedding of the custom-hook loop body: registrations made before the
first non-dict item, and the assertion error at that item if any. -/
def custom_hook_items : List Val → List (Dict × Val) × Option PyErr
  | [] => ([], Option.none)
  | item :: rest =>
      match item with
      | Val.dict d =>
          let (regs, err) := custom_hook_items rest
          (hook_entry (Val.dict d) :: regs, err)
      | _ => ([], Option.some (PyErr.assertionError
               "Each item in custom_hooks expects dict type"))

/-- Embedding of the guard `if cfg.get(..)` over `custom_hooks`, applied to the
value of the `custom_hooks` key. -/
def custom_stage (ch : Option Val) : List (Dict × Val) × Option PyErr :=
  match ch with
  | Option.some v =>
      if v.truthy then
        match v with
        | Val.list items => custom_hook_items items
        | _ => ([], Option.some (PyErr.assertionError "custom_hooks expect list type"))
      else ([], Option.none)
  | Option.none => ([], Option.none)

/-- The observable trace of one `train_model` call: the arguments handed to
external builders, the hooks registered, the warnings emitted, the final
configuration object, the restoration call made, and the abort if any.
Fields of stages not reached keep their empty defaults. -/
structure Out where
  warnings : List String
  finalCfg : Config
  train_loaders : List Loader
  wrap_distributed : Bool
  wrap_find_unused_parameters : Bool
  optimizer_spec : Val
  runner_timestamp : Val
  opt_hook : Option OptHookChoice
  training_hooks : Option TrainingHooksReg
  val_datasets : List BuiltDataset
  val_loaders : List Loader
  eval_reg : Option EvalReg
  custom_hook_regs : List (Dict × Val)
  resume_called : Option Val
  load_called : Option Val
  ran : Bool
  abort : Option PyErr
deriving Repr

/-- The trace before any stage has run. -/
def Out.initial (cfg : Config) (distributed : Bool) (timestamp : Val) : Out :=
  { warnings := []
    finalCfg := cfg
    train_loaders := []
    wrap_distributed := distributed
    wrap_find_unused_parameters := cfg.find_unused_parameters.getD false
    optimizer_spec := cfg.optimizer
    runner_timestamp := timestamp
    opt_hook := Option.none
    training_hooks := Option.none
    val_datasets := []
    val_loaders := []
    eval_reg := Option.none
    custom_hook_regs := []
    resume_called := Option.none
    load_called := Option.none
    ran := false
    abort := Option.none }

/-- Embedding of `train_model(model, dataset, cfg, distributed, validate,
timestamp, meta)`. The model, logger, optimizer object, and runner object are
external; the trace records the decisions taken with respect to them. -/
def train_model (dataset : DatasetArg) (cfg : Config)
    (distributed : Bool) (validate : Bool) (timestamp : Val) : Out :=
  let ds_list := normalize_datasets dataset
  let o0 := Out.initial cfg distributed timestamp
  match build_train_loaders ds_list cfg distributed with
  | Except.error e => { o0 with abort := Option.some e }
  | Except.ok loaders =>
    let rf := runner_fill cfg
    let cfg1 := rf.1
    let runner_spec := rf.2.1
    let o1 := { o0 with train_loaders := loaders, finalCfg := cfg1, warnings := rf.2.2 }
    match select_optimizer_config cfg1 distributed with
    | Except.error e => { o1 with abort := Option.some e }
    | Except.ok choice =>
      let o2 := { o1 with
        opt_hook := Option.some choice
        training_hooks := Option.some
          { lr_config := cfg1.lr_config
            optimizer_config := choice
            checkpoint_config := cfg1.checkpoint_config
            log_config := cfg1.log_config
            momentum_config := cfg1.momentum_config } }
      let eo := if validate then eval_stage cfg1 runner_spec distributed else eval_skip cfg1
      let cfg2 := { cfg1 with evaluation := eo.new_evaluation }
      let o3 := { o2 with
        finalCfg := cfg2
        val_datasets := eo.datasets
        val_loaders := eo.loaders
        eval_reg := eo.reg }
      match eo.err with
      | Option.some e => { o3 with abort := Option.some e }
      | Option.none =>
        let cs := custom_stage cfg2.custom_hooks
        let o4 := { o3 with custom_hook_regs := cs.1 }
        match cs.2 with
        | Option.some e => { o4 with abort := Option.some e }
        | Option.none =>
          if truthyOpt cfg2.resume_from then
            { o4 with resume_called := cfg2.resume_from, ran := true }
          else if truthyOpt cfg2.load_from then
            { o4 with load_called := cfg2.load_from, ran := true }
          else
            { o4 with ran := true }

/-- The warnings the runner default-filling block emits. -/
def runner_warnings (cfg : Config) : List String :=
  (runner_fill cfg).2.2

/-- The evaluation block as `train_model` runs it: active only when
`validate` is true, on the configuration after runner default-filling. -/
def eval_out (cfg : Config) (distributed validate : Bool) : EvalOut :=
  if validate then eval_stage (cfg_after_fill cfg) (runner_after_fill cfg) distributed
  else eval_skip (cfg_after_fill cfg)

/-!
Small concrete configurations, used by the witness theorems.
-/

/-- A minimal `cfg.data` section. -/
def sampleData : DataCfg :=
  { train_dataloader := [("samples_per_gpu", Val.nat 1)]
    val := [("type", Val.str "Sintel")]
    val_dataloader := [("samples_per_gpu", Val.nat 1)] }

/-- A minimal well-formed configuration with an explicit runner spec. -/
def sampleCfg : Config :=
  { log_level := Val.str "INFO"
    gpu_ids := [0]
    seed := Val.nat 0
    data := sampleData
    optimizer := Val.dict [("type", Val.str "Adam")]
    optimizer_config := [("grad_clip", Val.pynone)]
    total_iters := 100
    work_dir := Val.str "work"
    runner := Option.some [("type", Val.str "IterBasedRunner"), ("max_iters", Val.nat 100)]
    fp16 := Option.none
    lr_config := Val.dict [("policy", Val.str "Fixed")]
    checkpoint_config := Val.dict [("interval", Val.nat 10)]
    log_config := Val.dict [("interval", Val.nat 5)]
    momentum_config := Option.none
    find_unused_parameters := Option.none
    evaluation := Option.none
    custom_hooks := Option.none
    resume_from := Option.none
    load_from := Option.none
    workflow := Val.list [Val.list [Val.str "train", Val.nat 1]] }

/-- A one-element dataset argument for the witnesses. -/
def sampleDatasets : DatasetArg :=
  DatasetArg.single (Val.str "train_ds")

/-- A custom-hook entry with an explicit HIGH priority, for the C3 witness. -/
def sampleHookDict : Dict :=
  [("priority", Val.str "HIGH"), ("type", Val.str "EMAHook")]

/-- A configuration declaring one custom hook, for the C3 witness. -/
def sampleHookCfg : Config :=
  { sampleCfg with custom_hooks := Option.some (Val.list [Val.dict sampleHookDict]) }

/-- A configuration with two separately evaluated validation datasets, for
the C5 witness. -/
def sampleSepCfg : Config :=
  { sampleCfg with
      data := { sampleData with
        val := [("separate_eval", Val.bool true),
                ("datasets", Val.list [Val.str "d1", Val.str "d2"])] } }

/-- The validation dataset built by `train_model` on `sampleCfg`, for the C6
witness. -/
def sampleValDataset : BuiltDataset :=
  { spec := Val.dict [("type", Val.str "Sintel")]
    default_args := Option.some [("test_mode", Val.bool true)] }

/-- The evaluation-hook registration `train_model` makes on `sampleCfg`, for
the C6 witness. -/
def sampleEvalReg : EvalReg :=
  { dist_variant := false
    loaders := [{ dataset := DSHandle.built sampleValDataset
                  num_gpus := Option.none
                  dist := false
                  seed := Option.none
                  opts := [("samples_per_gpu", Val.nat 1)] }]
    is_list_arg := false
    eval_cfg := [("by_epoch", Val.bool false)]
    dataset_name := sampleValDataset.dataset_name
    priority := Val.str "LOW" }

/-- The configuration `sampleCfg` with an explicit empty `evaluation`
section, for the C7 counterexample. -/
def sampleEvalCfg : Config :=
  { sampleCfg with evaluation := Option.some [] }

/-!
Theorems: helper lemmas first, then the claims and their witnesses.
-/
/-- Equality on values agrees with propositional equality when the right-hand
side is a string literal (the only cross-type comparison `train_model` makes). -/
theorem Val.beq_str_iff (t : Val) (s : String) :
    Val.beq t (Val.str s) = true ↔ t = Val.str s := by
  cases t <;> simp [Val.beq]

/-!
Helper lemmas about the stages, shared by the claim theorems below.
-/

theorem build_train_loaders_ok (ds : List Val) (cfg : Config) (distributed : Bool)
    (h : train_loader_kw_ok cfg.data.train_dataloader = true) :
    build_train_loaders ds cfg distributed =
      Except.ok (train_loaders_of ds cfg distributed) := by
  simp [build_train_loaders, h]

theorem cfg_after_fill_eq (cfg : Config) :
    cfg_after_fill cfg = { cfg with runner := Option.some (runner_after_fill cfg) } := by
  cases h : cfg.runner with
  | none => simp [cfg_after_fill, runner_after_fill, runner_fill, h]
  | some r =>
      simp only [cfg_after_fill, runner_after_fill, runner_fill, h]
      rw [← h]

theorem runner_fill_eq (cfg : Config) :
    runner_fill cfg = (cfg_after_fill cfg, runner_after_fill cfg, runner_warnings cfg) := by
  cases h : cfg.runner <;>
    simp [cfg_after_fill, runner_after_fill, runner_warnings, runner_fill, h]

theorem select_ok_of_merge_ok (cfg : Config) (distributed : Bool)
    (h : fp16_merge_ok cfg = true) :
    select_optimizer_config cfg distributed =
      Except.ok (match cfg.fp16 with
        | Option.some f => OptHookChoice.fp16Hook
            (cfg.optimizer_config ++ f ++ [("distributed", Val.bool distributed)])
        | Option.none =>
            if distributed && !dictHasKey cfg.optimizer_config "type" then
              OptHookChoice.plainHook cfg.optimizer_config
            else OptHookChoice.rawCfg cfg.optimizer_config) := by
  cases hf : cfg.fp16 with
  | none =>
      simp only [select_optimizer_config, hf]
      split <;> rfl
  | some f =>
      have hk : fp16_kwargs_ok cfg.optimizer_config f = true := by
        simpa [fp16_merge_ok, hf] using h
      simp [select_optimizer_config, hf, hk]

/-- Unfolding of `train_model` on runs that get past loader construction and
optimizer-hook selection, in terms of the stage functions. -/
theorem train_model_run_eq (dataset : DatasetArg) (cfg : Config)
    (distributed validate : Bool) (timestamp : Val)
    (hload : train_loader_kw_ok cfg.data.train_dataloader = true)
    (choice : OptHookChoice)
    (hsel : select_optimizer_config (cfg_after_fill cfg) distributed = Except.ok choice) :
    train_model dataset cfg distributed validate timestamp =
      (let cfg1 := cfg_after_fill cfg
       let eo := eval_out cfg distributed validate
       let cfg2 : Config := { cfg1 with evaluation := eo.new_evaluation }
       let o3 : Out :=
         { warnings := runner_warnings cfg
           finalCfg := cfg2
           train_loaders := train_loaders_of (normalize_datasets dataset) cfg distributed
           wrap_distributed := distributed
           wrap_find_unused_parameters := cfg.find_unused_parameters.getD false
           optimizer_spec := cfg.optimizer
           runner_timestamp := timestamp
           opt_hook := Option.some choice
           training_hooks := Option.some
             { lr_config := cfg1.lr_config
               optimizer_config := choice
               checkpoint_config := cfg1.checkpoint_config
               log_config := cfg1.log_config
               momentum_config := cfg1.momentum_config }
           val_datasets := eo.datasets
           val_loaders := eo.loaders
           eval_reg := eo.reg
           custom_hook_regs := []
           resume_called := Option.none
           load_called := Option.none
           ran := false
           abort := Option.none }
       match eo.err with
       | Option.some e => { o3 with abort := Option.some e }
       | Option.none =>
         let cs := custom_stage cfg2.custom_hooks
         let o4 := { o3 with custom_hook_regs := cs.1 }
         match cs.2 with
         | Option.some e => { o4 with abort := Option.some e }
         | Option.none =>
           if truthyOpt cfg2.resume_from then
             { o4 with resume_called := cfg2.resume_from, ran := true }
           else if truthyOpt cfg2.load_from then
             { o4 with load_called := cfg2.load_from, ran := true }
           else { o4 with ran := true }) := by
  simp only [train_model, build_train_loaders_ok _ _ _ hload, runner_fill_eq cfg, hsel,
    Out.initial, eval_out]

/-- Trace fields that are independent of eval-block errors and of the
custom-hook, resume and run steps. -/
theorem train_model_stable_fields (dataset : DatasetArg) (cfg : Config)
    (distributed validate : Bool) (timestamp : Val)
    (hload : train_loader_kw_ok cfg.data.train_dataloader = true)
    (choice : OptHookChoice)
    (hsel : select_optimizer_config (cfg_after_fill cfg) distributed = Except.ok choice) :
    (train_model dataset cfg distributed validate timestamp).finalCfg =
      { cfg_after_fill cfg with
          evaluation := (eval_out cfg distributed validate).new_evaluation } ∧
    (train_model dataset cfg distributed validate timestamp).warnings =
      runner_warnings cfg ∧
    (train_model dataset cfg distributed validate timestamp).opt_hook =
      Option.some choice ∧
    (train_model dataset cfg distributed validate timestamp).training_hooks =
      Option.some
        { lr_config := (cfg_after_fill cfg).lr_config
          optimizer_config := choice
          checkpoint_config := (cfg_after_fill cfg).checkpoint_config
          log_config := (cfg_after_fill cfg).log_config
          momentum_config := (cfg_after_fill cfg).momentum_config } ∧
    (train_model dataset cfg distributed validate timestamp).val_datasets =
      (eval_out cfg distributed validate).datasets ∧
    (train_model dataset cfg distributed validate timestamp).val_loaders =
      (eval_out cfg distributed validate).loaders ∧
    (train_model dataset cfg distributed validate timestamp).eval_reg =
      (eval_out cfg distributed validate).reg ∧
    (train_model dataset cfg distributed validate timestamp).train_loaders =
      train_loaders_of (normalize_datasets dataset) cfg distributed := by
  rw [train_model_run_eq dataset cfg distributed validate timestamp hload choice hsel]
  dsimp only
  repeat' split
  all_goals exact ⟨rfl, rfl, rfl, rfl, rfl, rfl, rfl, rfl⟩

/-- Behavior of the custom-hook, resume/load and run steps of `train_model`,
depending on whether the evaluation block raised. -/
theorem train_model_tail (dataset : DatasetArg) (cfg : Config)
    (distributed validate : Bool) (timestamp : Val)
    (hload : train_loader_kw_ok cfg.data.train_dataloader = true)
    (choice : OptHookChoice)
    (hsel : select_optimizer_config (cfg_after_fill cfg) distributed = Except.ok choice) :
    ((eval_out cfg distributed validate).err = Option.none →
      (train_model dataset cfg distributed validate timestamp).custom_hook_regs =
        (custom_stage cfg.custom_hooks).1 ∧
      (train_model dataset cfg distributed validate timestamp).abort =
        (custom_stage cfg.custom_hooks).2) ∧
    ((eval_out cfg distributed validate).err = Option.none →
      (custom_stage cfg.custom_hooks).2 = Option.none →
      (train_model dataset cfg distributed validate timestamp).resume_called =
        (if truthyOpt cfg.resume_from then cfg.resume_from else Option.none) ∧
      (train_model dataset cfg distributed validate timestamp).load_called =
        (if truthyOpt cfg.resume_from then Option.none
         else if truthyOpt cfg.load_from then cfg.load_from else Option.none) ∧
      (train_model dataset cfg distributed validate timestamp).ran = true) ∧
    (∀ e, (eval_out cfg distributed validate).err = Option.some e →
      (train_model dataset cfg distributed validate timestamp).abort = Option.some e ∧
      (train_model dataset cfg distributed validate timestamp).custom_hook_regs = []) := by
  rw [train_model_run_eq dataset cfg distributed validate timestamp hload choice hsel]
  dsimp only
  have hch : ({ cfg_after_fill cfg with
      evaluation := (eval_out cfg distributed validate).new_evaluation } : Config).custom_hooks
      = cfg.custom_hooks := by
    rw [cfg_after_fill_eq]
  have hrf : ({ cfg_after_fill cfg with
      evaluation := (eval_out cfg distributed validate).new_evaluation } : Config).resume_from
      = cfg.resume_from := by
    rw [cfg_after_fill_eq]
  have hlf : ({ cfg_after_fill cfg with
      evaluation := (eval_out cfg distributed validate).new_evaluation } : Config).load_from
      = cfg.load_from := by
    rw [cfg_after_fill_eq]
  refine ⟨?_, ?_, ?_⟩
  · intro heo
    rw [heo, hch]
    dsimp only
    repeat' split
    all_goals simp_all
  · intro heo hcs
    rw [heo, hch]
    dsimp only
    rw [hcs]
    dsimp only
    rw [hrf, hlf]
    repeat' split
    all_goals simp_all
  · intro e heo
    rw [heo]
    exact ⟨rfl, rfl⟩

/-!
The claims.
-/

/-- C8: `set_random_seed` is idempotent — a second call with the same
arguments leaves every piece of state it touches equal to the state after a
single call — and two calls with identical arguments leave the
general-purpose PRNG in the same subsequent-draw state regardless of the
prior states. -/
theorem set_random_seed_idempotent (s : Nat) (d : Bool) (st st1 st2 : RandomState) :
    set_random_seed s d (set_random_seed s d st) = set_random_seed s d st ∧
    (set_random_seed s d st1).random_state = (set_random_seed s d st2).random_state := by
  cases d <;> simp [set_random_seed]

/-- C9: with `deterministic=false`, `set_random_seed` leaves the two cuDNN
flags unchanged; it sets them (to `true` and `false` respectively) only when
`deterministic=true`. -/
theorem set_random_seed_cudnn_frame (s : Nat) (st : RandomState) :
    (set_random_seed s false st).cudnn_deterministic = st.cudnn_deterministic ∧
    (set_random_seed s false st).cudnn_benchmark = st.cudnn_benchmark ∧
    (set_random_seed s true st).cudnn_deterministic = true ∧
    (set_random_seed s true st).cudnn_benchmark = false := by
  simp [set_random_seed]

theorem cfg_after_fill_fp16 (cfg : Config) : (cfg_after_fill cfg).fp16 = cfg.fp16 := by
  rw [cfg_after_fill_eq]

theorem cfg_after_fill_optimizer_config (cfg : Config) :
    (cfg_after_fill cfg).optimizer_config = cfg.optimizer_config := by
  rw [cfg_after_fill_eq]

theorem cfg_after_fill_data (cfg : Config) : (cfg_after_fill cfg).data = cfg.data := by
  rw [cfg_after_fill_eq]

theorem fp16_merge_ok_after_fill (cfg : Config) (h : fp16_merge_ok cfg = true) :
    fp16_merge_ok (cfg_after_fill cfg) = true := by
  unfold fp16_merge_ok
  rw [cfg_after_fill_fp16, cfg_after_fill_optimizer_config]
  exact h

/-- C2: when `cfg.runner` is absent, `train_model` sets the runner spec of
the configuration to exactly `{type: IterBasedRunner, max_iters: cfg.total_iters}`
and emits the deprecation warning exactly once; when `runner` is present,
neither the mutation nor the warning occurs. -/
theorem train_model_runner_default_fill (dataset : DatasetArg) (cfg : Config)
    (distributed validate : Bool) (timestamp : Val)
    (hload : train_loader_kw_ok cfg.data.train_dataloader = true)
    (hfp : fp16_merge_ok cfg = true) :
    (cfg.runner = Option.none →
      (train_model dataset cfg distributed validate timestamp).finalCfg.runner =
        Option.some [("type", Val.str "IterBasedRunner"),
                     ("max_iters", Val.nat cfg.total_iters)] ∧
      (train_model dataset cfg distributed validate timestamp).warnings =
        [runner_deprecation_msg]) ∧
    (∀ r, cfg.runner = Option.some r →
      (train_model dataset cfg distributed validate timestamp).finalCfg.runner =
        Option.some r ∧
      (train_model dataset cfg distributed validate timestamp).warnings = []) := by
  have hsel := select_ok_of_merge_ok (cfg_after_fill cfg) distributed
    (fp16_merge_ok_after_fill cfg hfp)
  obtain ⟨hfc, hw, -, -, -, -, -, -⟩ :=
    train_model_stable_fields dataset cfg distributed validate timestamp hload _ hsel
  constructor
  · intro h
    rw [hfc, hw, cfg_after_fill_eq]
    constructor
    · simp [runner_after_fill, runner_fill, h, default_runner_spec]
    · simp [runner_warnings, runner_fill, h]
  · intro r h
    rw [hfc, hw, cfg_after_fill_eq]
    constructor
    · simp [runner_after_fill, runner_fill, h]
    · simp [runner_warnings, runner_fill, h]

/-- Witness for C2 at a concrete configuration with `runner` absent. -/
theorem train_model_runner_default_fill_witness :
    (train_model sampleDatasets { sampleCfg with runner := Option.none } false false
        Val.pynone).finalCfg.runner =
      Option.some [("type", Val.str "IterBasedRunner"), ("max_iters", Val.nat 100)] ∧
    (train_model sampleDatasets { sampleCfg with runner := Option.none } false false
        Val.pynone).warnings = [runner_deprecation_msg] :=
  (train_model_runner_default_fill sampleDatasets
    { sampleCfg with runner := Option.none } false false Val.pynone rfl rfl).1 rfl

/-- C1: `train_model` selects exactly one optimizer-hook variant, by
priority: if `fp16` is present, a mixed-precision hook built from the merge
of `optimizer_config`, the `fp16` section, and the distributed flag;
otherwise, if `distributed` is true and `optimizer_config` has no `type`
key, a plain OptimizerHook built from `optimizer_config`; otherwise the
`optimizer_config` object passed through unmodified. -/
theorem train_model_opt_hook_priority (dataset : DatasetArg) (cfg : Config)
    (distributed validate : Bool) (timestamp : Val)
    (hload : train_loader_kw_ok cfg.data.train_dataloader = true)
    (hfp : fp16_merge_ok cfg = true) :
    (train_model dataset cfg distributed validate timestamp).opt_hook =
      Option.some (match cfg.fp16 with
        | Option.some f => OptHookChoice.fp16Hook
            (cfg.optimizer_config ++ f ++ [("distributed", Val.bool distributed)])
        | Option.none =>
            if distributed && !dictHasKey cfg.optimizer_config "type" then
              OptHookChoice.plainHook cfg.optimizer_config
            else OptHookChoice.rawCfg cfg.optimizer_config) := by
  have hsel := select_ok_of_merge_ok (cfg_after_fill cfg) distributed
    (fp16_merge_ok_after_fill cfg hfp)
  obtain ⟨-, -, hoh, -, -, -, -, -⟩ :=
    train_model_stable_fields dataset cfg distributed validate timestamp hload _ hsel
  rw [hoh, cfg_after_fill_fp16, cfg_after_fill_optimizer_config]

/-- Witness for C1 at a concrete configuration with `fp16` present. -/
theorem train_model_opt_hook_priority_witness :
    (train_model sampleDatasets
        { sampleCfg with fp16 := Option.some [("loss_scale", Val.nat 512)] }
        true false Val.pynone).opt_hook =
      Option.some (OptHookChoice.fp16Hook
        [("grad_clip", Val.pynone), ("loss_scale", Val.nat 512),
         ("distributed", Val.bool true)]) :=
  train_model_opt_hook_priority sampleDatasets
    { sampleCfg with fp16 := Option.some [("loss_scale", Val.nat 512)] }
    true false Val.pynone rfl rfl

/-- C4: on a run that does not abort, resume takes precedence: with
`resume_from` truthy, `runner.resume` is called with it and `load_checkpoint`
is never called; `load_checkpoint` is called only when `resume_from` is
falsy and `load_from` truthy; with both falsy neither call is made. -/
theorem train_model_resume_precedence (dataset : DatasetArg) (cfg : Config)
    (distributed validate : Bool) (timestamp : Val)
    (hload : train_loader_kw_ok cfg.data.train_dataloader = true)
    (hfp : fp16_merge_ok cfg = true)
    (hok : (train_model dataset cfg distributed validate timestamp).abort = Option.none) :
    (truthyOpt cfg.resume_from = true →
      (train_model dataset cfg distributed validate timestamp).resume_called =
        cfg.resume_from ∧
      (train_model dataset cfg distributed validate timestamp).load_called =
        Option.none) ∧
    (truthyOpt cfg.resume_from = false → truthyOpt cfg.load_from = true →
      (train_model dataset cfg distributed validate timestamp).resume_called =
        Option.none ∧
      (train_model dataset cfg distributed validate timestamp).load_called =
        cfg.load_from) ∧
    (truthyOpt cfg.resume_from = false → truthyOpt cfg.load_from = false →
      (train_model dataset cfg distributed validate timestamp).resume_called =
        Option.none ∧
      (train_model dataset cfg distributed validate timestamp).load_called =
        Option.none) := by
  have hsel := select_ok_of_merge_ok (cfg_after_fill cfg) distributed
    (fp16_merge_ok_after_fill cfg hfp)
  obtain ⟨T1, T2, T3⟩ :=
    train_model_tail dataset cfg distributed validate timestamp hload _ hsel
  cases heo : (eval_out cfg distributed validate).err with
  | some e =>
      rw [(T3 e heo).1] at hok
      simp at hok
  | none =>
      obtain ⟨-, habort⟩ := T1 heo
      rw [habort] at hok
      obtain ⟨hres, hld, -⟩ := T2 heo hok
      refine ⟨?_, ?_, ?_⟩
      · intro h1
        rw [hres, hld]
        simp [h1]
      · intro h1 h2
        rw [hres, hld]
        simp [h1, h2]
      · intro h1 h2
        rw [hres, hld]
        simp [h1, h2]

/-- Witness for C4 at a concrete configuration with both `resume_from` and
`load_from` set. -/
theorem train_model_resume_precedence_witness :
    (train_model sampleDatasets
        { sampleCfg with resume_from := Option.some (Val.str "a.pth"),
                         load_from := Option.some (Val.str "b.pth") }
        false false Val.pynone).resume_called = Option.some (Val.str "a.pth") ∧
    (train_model sampleDatasets
        { sampleCfg with resume_from := Option.some (Val.str "a.pth"),
                         load_from := Option.some (Val.str "b.pth") }
        false false Val.pynone).load_called = Option.none :=
  (train_model_resume_precedence sampleDatasets
    { sampleCfg with resume_from := Option.some (Val.str "a.pth"),
                     load_from := Option.some (Val.str "b.pth") }
    false false Val.pynone rfl rfl rfl).1 rfl

theorem custom_stage_falsy (ch : Option Val) (h : truthyOpt ch = false) :
    custom_stage ch = ([], Option.none) := by
  cases ch with
  | none => rfl
  | some v =>
      have hv : v.truthy = false := by simpa [truthyOpt] using h
      simp [custom_stage, hv]

/-- C10: a falsy `custom_hooks` value (absent, None, empty list, empty
string, zero) makes `train_model` skip the custom-hook section entirely: the
fail-fast type check does not fire (no abort) and no custom hook is
registered. -/
theorem train_model_custom_hooks_falsy_skip (dataset : DatasetArg) (cfg : Config)
    (distributed validate : Bool) (timestamp : Val)
    (hload : train_loader_kw_ok cfg.data.train_dataloader = true)
    (hfp : fp16_merge_ok cfg = true)
    (heval : (eval_out cfg distributed validate).err = Option.none)
    (hch : truthyOpt cfg.custom_hooks = false) :
    (train_model dataset cfg distributed validate timestamp).custom_hook_regs = [] ∧
    (train_model dataset cfg distributed validate timestamp).abort = Option.none := by
  have hsel := select_ok_of_merge_ok (cfg_after_fill cfg) distributed
    (fp16_merge_ok_after_fill cfg hfp)
  obtain ⟨T1, -, -⟩ :=
    train_model_tail dataset cfg distributed validate timestamp hload _ hsel
  obtain ⟨h1, h2⟩ := T1 heval
  rw [h1, h2, custom_stage_falsy _ hch]
  exact ⟨rfl, rfl⟩

/-- Witness for C10 at a concrete configuration whose `custom_hooks` is a
falsy non-list (the empty string). -/
theorem train_model_custom_hooks_falsy_skip_witness :
    (train_model sampleDatasets
        { sampleCfg with custom_hooks := Option.some (Val.str "") }
        false false Val.pynone).custom_hook_regs = [] ∧
    (train_model sampleDatasets
        { sampleCfg with custom_hooks := Option.some (Val.str "") }
        false false Val.pynone).abort = Option.none :=
  train_model_custom_hooks_falsy_skip sampleDatasets
    { sampleCfg with custom_hooks := Option.some (Val.str "") }
    false false Val.pynone rfl rfl rfl rfl

theorem custom_hook_items_all_dicts (items : List Val)
    (h : ∀ x ∈ items, ∃ d, x = Val.dict d) :
    custom_hook_items items = (items.map hook_entry, Option.none) := by
  induction items with
  | nil => rfl
  | cons a rest ih =>
      obtain ⟨d, rfl⟩ := h a (by simp)
      have hr := ih (fun x hx => h x (by simp [hx]))
      simp [custom_hook_items, hr]

theorem custom_hook_items_first_bad (pre : List Val) (bad : Val) (rest : List Val)
    (hpre : ∀ x ∈ pre, ∃ d, x = Val.dict d)
    (hbad : ∀ d, bad ≠ Val.dict d) :
    custom_hook_items (pre ++ bad :: rest) =
      (pre.map hook_entry,
       Option.some (PyErr.assertionError "Each item in custom_hooks expects dict type")) := by
  induction pre with
  | nil =>
      cases bad with
      | dict d => exact absurd rfl (hbad d)
      | pynone => rfl
      | bool b => rfl
      | nat n => rfl
      | str s => rfl
      | list l => rfl
  | cons a pre ih =>
      obtain ⟨d, rfl⟩ := hpre a (by simp)
      have hr := ih (fun x hx => hpre x (by simp [hx]))
      simp [custom_hook_items, hr]

/-- C3: a present, truthy `custom_hooks` value that is not a list aborts
with an assertion failure before registering any custom hook; a list with a
non-dict item aborts at that item, keeping only the registrations before it;
an all-dict list registers, in order, one hook per entry, built from the
entry minus its `priority` key and registered at that priority (default
`NORMAL`, as recorded by `hook_entry`). -/
theorem train_model_custom_hooks_contract (dataset : DatasetArg) (cfg : Config)
    (distributed validate : Bool) (timestamp : Val) (v : Val)
    (hload : train_loader_kw_ok cfg.data.train_dataloader = true)
    (hfp : fp16_merge_ok cfg = true)
    (heval : (eval_out cfg distributed validate).err = Option.none)
    (hch : cfg.custom_hooks = Option.some v)
    (htr : v.truthy = true) :
    ((∀ l, v ≠ Val.list l) →
      (train_model dataset cfg distributed validate timestamp).abort =
        Option.some (PyErr.assertionError "custom_hooks expect list type") ∧
      (train_model dataset cfg distributed validate timestamp).custom_hook_regs = []) ∧
    (∀ items, v = Val.list items → (∀ x ∈ items, ∃ d, x = Val.dict d) →
      (train_model dataset cfg distributed validate timestamp).custom_hook_regs =
        items.map hook_entry ∧
      (train_model dataset cfg distributed validate timestamp).abort = Option.none) ∧
    (∀ pre bad rest, v = Val.list (pre ++ bad :: rest) →
      (∀ x ∈ pre, ∃ d, x = Val.dict d) → (∀ d, bad ≠ Val.dict d) →
      (train_model dataset cfg distributed validate timestamp).custom_hook_regs =
        pre.map hook_entry ∧
      (train_model dataset cfg distributed validate timestamp).abort =
        Option.some (PyErr.assertionError "Each item in custom_hooks expects dict type")) := by
  have hsel := select_ok_of_merge_ok (cfg_after_fill cfg) distributed
    (fp16_merge_ok_after_fill cfg hfp)
  obtain ⟨T1, -, -⟩ :=
    train_model_tail dataset cfg distributed validate timestamp hload _ hsel
  obtain ⟨hregs, habort⟩ := T1 heval
  rw [hch] at hregs habort
  refine ⟨?_, ?_, ?_⟩
  · intro hnl
    rw [habort, hregs]
    cases v with
    | list l => exact absurd rfl (hnl l)
    | pynone => simp [Val.truthy] at htr
    | bool b => simp [custom_stage, htr]
    | nat n => simp [custom_stage, htr]
    | str s => simp [custom_stage, htr]
    | dict d => simp [custom_stage, htr]
  · rintro items rfl hall
    rw [habort, hregs]
    simp [custom_stage, htr, custom_hook_items_all_dicts items hall]
  · rintro pre bad rest rfl hpre hbad
    rw [habort, hregs]
    simp [custom_stage, htr, custom_hook_items_first_bad pre bad rest hpre hbad]

/-- Witness for C3 at a concrete configuration with one custom hook carrying
an explicit HIGH priority. -/
theorem train_model_custom_hooks_contract_witness :
    (train_model sampleDatasets sampleHookCfg false false Val.pynone).custom_hook_regs =
      [([("type", Val.str "EMAHook")], Val.str "HIGH")] ∧
    (train_model sampleDatasets sampleHookCfg false false Val.pynone).abort =
      Option.none := by
  have h := ((train_model_custom_hooks_contract sampleDatasets sampleHookCfg
    false false Val.pynone (Val.list [Val.dict sampleHookDict])
    rfl rfl rfl rfl rfl).2.1)
    [Val.dict sampleHookDict] rfl
    (by intro x hx
        simp at hx
        exact ⟨sampleHookDict, hx⟩)
  simpa [hook_entry, sampleHookDict, dictErase, dictGetD, dictGet?] using h

theorem dictGet?_overwrite (d : Dict) (k : String) (v : Val)
    (h : dictHasKey d k = true) :
    dictGet? (d.map (fun p => if p.1 == k then (k, v) else p)) k = Option.some v := by
  induction d with
  | nil => simp [dictHasKey] at h
  | cons p rest ih =>
      rw [List.map_cons]
      by_cases hk : (p.1 == k) = true
      · rw [if_pos hk]
        unfold dictGet?
        rw [List.find?_cons_of_pos _ (by simp)]
        rfl
      · have hk2 : (p.1 == k) = false := by simpa using hk
        have h2 : dictHasKey rest k = true := by
          rw [dictHasKey, List.any_cons, hk2] at h
          simpa [dictHasKey] using h
        rw [if_neg (by simp [hk2])]
        unfold dictGet?
        rw [List.find?_cons_of_neg _ (by simp [hk2])]
        exact ih h2

theorem dictGet?_append_new (d : Dict) (k : String) (v : Val)
    (h : dictHasKey d k = false) :
    dictGet? (d ++ [(k, v)]) k = Option.some v := by
  induction d with
  | nil =>
      unfold dictGet?
      rw [List.nil_append, List.find?_cons_of_pos _ (by simp)]
      rfl
  | cons p rest ih =>
      have hk2 : (p.1 == k) = false := by
        cases hb : (p.1 == k) with
        | false => rfl
        | true =>
            rw [dictHasKey, List.any_cons, hb] at h
            simp at h
      have h2 : dictHasKey rest k = false := by
        rw [dictHasKey, List.any_cons, hk2] at h
        simpa [dictHasKey] using h
      rw [List.cons_append]
      unfold dictGet?
      rw [List.find?_cons_of_neg _ (by simp [hk2])]
      exact ih h2

theorem dictGet?_set_self (d : Dict) (k : String) (v : Val) :
    dictGet? (dictSet d k v) k = Option.some v := by
  unfold dictSet
  by_cases h : dictHasKey d k = true
  · rw [if_pos h]
    exact dictGet?_overwrite d k v h
  · have hf : dictHasKey d k = false := by simpa using h
    rw [if_neg (by simp [hf])]
    exact dictGet?_append_new d k v hf

theorem eval_stage_separate (cfg : Config) (runner_spec : Dict) (distributed : Bool)
    (specs : List Val)
    (hsep : (dictGetD cfg.data.val "separate_eval" (Val.bool false)).truthy = true)
    (hds : dictGet? cfg.data.val "datasets" = Option.some (Val.list specs))
    (hdist : dictHasKey cfg.data.val_dataloader "dist" = false) :
    (eval_stage cfg runner_spec distributed).datasets =
      specs.map (fun s => BuiltDataset.mk s Option.none) ∧
    (eval_stage cfg runner_spec distributed).loaders =
      (specs.map (fun s => BuiltDataset.mk s Option.none)).map
        (fun d => build_val_loader d cfg distributed) ∧
    (∀ r, (eval_stage cfg runner_spec distributed).reg = Option.some r →
      r.dist_variant = distributed ∧
      r.priority = Val.str "LOW" ∧
      r.is_list_arg = true ∧
      r.dataset_name =
        Val.list ((specs.map (fun s => BuiltDataset.mk s Option.none)).map
          BuiltDataset.dataset_name) ∧
      r.loaders =
        (specs.map (fun s => BuiltDataset.mk s Option.none)).map
          (fun d => build_val_loader d cfg distributed)) := by
  refine ⟨?_, ?_, ?_⟩
  · simp [eval_stage, hsep, hds, hdist]
    repeat' split
    all_goals rfl
  · simp [eval_stage, hsep, hds, hdist]
    repeat' split
    all_goals rfl
  · intro r hr
    simp only [eval_stage, hsep, hds, hdist] at hr
    rw [if_pos trivial] at hr
    rw [if_neg (by simp)] at hr
    dsimp only at hr
    split at hr
    · simp at hr
    · split at hr
      · simp at hr
      · obtain rfl := Option.some.inj hr
        exact ⟨rfl, rfl, rfl, by simp, by simp⟩

theorem eval_stage_reg_eval_cfg (cfg : Config) (runner_spec : Dict) (distributed : Bool)
    (r : EvalReg) (t : Val)
    (ht : dictGet? runner_spec "type" = Option.some t)
    (hr : (eval_stage cfg runner_spec distributed).reg = Option.some r) :
    r.eval_cfg = dictSet (cfg.evaluation.getD []) "by_epoch"
      (Val.bool (!Val.beq t (Val.str "IterBasedRunner"))) := by
  simp only [eval_stage] at hr
  split at hr
  · simp [eval_skip] at hr
  · rw [ht] at hr
    split at hr
    · rename_i heq
      exact absurd heq (by simp)
    · rename_i t2 heq
      obtain rfl := Option.some.inj heq
      split at hr
      · simp at hr
      · obtain rfl := Option.some.inj hr
        rfl

theorem cfg_after_fill_evaluation (cfg : Config) :
    (cfg_after_fill cfg).evaluation = cfg.evaluation := by
  rw [cfg_after_fill_eq]

theorem eval_out_validate_true (cfg : Config) (distributed : Bool) :
    eval_out cfg distributed true =
      eval_stage (cfg_after_fill cfg) (runner_after_fill cfg) distributed := rfl

theorem eval_out_validate_false (cfg : Config) (distributed : Bool) :
    eval_out cfg distributed false = eval_skip (cfg_after_fill cfg) := rfl

theorem build_val_loader_after_fill (d : BuiltDataset) (cfg : Config) (distributed : Bool) :
    build_val_loader d (cfg_after_fill cfg) distributed =
      build_val_loader d cfg distributed := by
  unfold build_val_loader
  rw [cfg_after_fill_data]

/-- C5: with `validate=true` and `separate_eval` set with N listed validation
datasets, `train_model` builds exactly N validation datasets and exactly N
validation loaders, one per listed dataset in order; the evaluation hook
receives the list of the N dataset names, is the distributed-aware variant
exactly when `distributed` is true, and is registered at priority LOW; with
`validate=false` no evaluation hook is registered and nothing is built. -/
theorem train_model_eval_separate (dataset : DatasetArg) (cfg : Config)
    (distributed : Bool) (timestamp : Val) (specs : List Val)
    (hload : train_loader_kw_ok cfg.data.train_dataloader = true)
    (hfp : fp16_merge_ok cfg = true)
    (hsep : (dictGetD cfg.data.val "separate_eval" (Val.bool false)).truthy = true)
    (hds : dictGet? cfg.data.val "datasets" = Option.some (Val.list specs))
    (hdist : dictHasKey cfg.data.val_dataloader "dist" = false) :
    ((train_model dataset cfg distributed true timestamp).val_datasets =
        specs.map (fun s => BuiltDataset.mk s Option.none) ∧
     (train_model dataset cfg distributed true timestamp).val_datasets.length =
        specs.length ∧
     (train_model dataset cfg distributed true timestamp).val_loaders =
        (train_model dataset cfg distributed true timestamp).val_datasets.map
          (fun d => build_val_loader d cfg distributed) ∧
     (train_model dataset cfg distributed true timestamp).val_loaders.length =
        specs.length ∧
     (∀ r, (train_model dataset cfg distributed true timestamp).eval_reg =
          Option.some r →
        r.dist_variant = distributed ∧
        r.priority = Val.str "LOW" ∧
        r.is_list_arg = true ∧
        r.dataset_name = Val.list
          ((train_model dataset cfg distributed true timestamp).val_datasets.map
            BuiltDataset.dataset_name) ∧
        r.loaders = (train_model dataset cfg distributed true timestamp).val_loaders)) ∧
    ((train_model dataset cfg distributed false timestamp).eval_reg = Option.none ∧
     (train_model dataset cfg distributed false timestamp).val_datasets = [] ∧
     (train_model dataset cfg distributed false timestamp).val_loaders = []) := by
  have hsel := select_ok_of_merge_ok (cfg_after_fill cfg) distributed
    (fp16_merge_ok_after_fill cfg hfp)
  obtain ⟨-, -, -, -, hvd, hvl, her, -⟩ :=
    train_model_stable_fields dataset cfg distributed true timestamp hload _ hsel
  obtain ⟨-, -, -, -, hvd0, hvl0, her0, -⟩ :=
    train_model_stable_fields dataset cfg distributed false timestamp hload _ hsel
  have hsep1 : (dictGetD (cfg_after_fill cfg).data.val "separate_eval"
      (Val.bool false)).truthy = true := by
    rw [cfg_after_fill_data]
    exact hsep
  have hds1 : dictGet? (cfg_after_fill cfg).data.val "datasets" =
      Option.some (Val.list specs) := by
    rw [cfg_after_fill_data]
    exact hds
  have hdist1 : dictHasKey (cfg_after_fill cfg).data.val_dataloader "dist" = false := by
    rw [cfg_after_fill_data]
    exact hdist
  obtain ⟨E1, E2, E3⟩ := eval_stage_separate (cfg_after_fill cfg) (runner_after_fill cfg)
    distributed specs hsep1 hds1 hdist1
  constructor
  · refine ⟨?_, ?_, ?_, ?_, ?_⟩
    · rw [hvd, eval_out_validate_true, E1]
    · rw [hvd, eval_out_validate_true, E1]
      simp
    · rw [hvl, hvd, eval_out_validate_true, E1, E2]
      simp [build_val_loader_after_fill]
    · rw [hvl, eval_out_validate_true, E2]
      simp
    · intro r hr
      rw [her, eval_out_validate_true] at hr
      obtain ⟨f1, f2, f3, f4, f5⟩ := E3 r hr
      refine ⟨f1, f2, f3, ?_, ?_⟩
      · rw [f4, hvd, eval_out_validate_true, E1]
      · rw [f5, hvl, eval_out_validate_true, E2]
  · refine ⟨?_, ?_, ?_⟩
    · rw [her0, eval_out_validate_false]
      rfl
    · rw [hvd0, eval_out_validate_false]
      rfl
    · rw [hvl0, eval_out_validate_false]
      rfl

/-- Witness for C5 at a concrete configuration listing two validation
datasets. -/
theorem train_model_eval_separate_witness :
    (train_model sampleDatasets sampleSepCfg false true Val.pynone).val_datasets.length
      = 2 ∧
    (train_model sampleDatasets sampleSepCfg false true Val.pynone).val_loaders.length
      = 2 :=
  ⟨((train_model_eval_separate sampleDatasets sampleSepCfg false Val.pynone
      [Val.str "d1", Val.str "d2"] rfl rfl rfl rfl rfl).1).2.1,
   ((train_model_eval_separate sampleDatasets sampleSepCfg false Val.pynone
      [Val.str "d1", Val.str "d2"] rfl rfl rfl rfl rfl).1).2.2.2.1⟩

/-- C6: on a validating run that registers the evaluation hook, the
`by_epoch` flag of the evaluation configuration is set to true exactly when
the runner spec `type` (in the configuration after any default-filling earlier
in the same call) is not `IterBasedRunner`. -/
theorem train_model_by_epoch (dataset : DatasetArg) (cfg : Config)
    (distributed : Bool) (timestamp : Val) (t : Val) (r : EvalReg)
    (hload : train_loader_kw_ok cfg.data.train_dataloader = true)
    (hfp : fp16_merge_ok cfg = true)
    (ht : dictGet? (runner_after_fill cfg) "type" = Option.some t)
    (hr : (train_model dataset cfg distributed true timestamp).eval_reg =
      Option.some r) :
    ∃ b : Bool, dictGet? r.eval_cfg "by_epoch" = Option.some (Val.bool b) ∧
      (b = true ↔ ¬ t = Val.str "IterBasedRunner") := by
  have hsel := select_ok_of_merge_ok (cfg_after_fill cfg) distributed
    (fp16_merge_ok_after_fill cfg hfp)
  obtain ⟨-, -, -, -, -, -, her, -⟩ :=
    train_model_stable_fields dataset cfg distributed true timestamp hload _ hsel
  rw [her, eval_out_validate_true] at hr
  have hec := eval_stage_reg_eval_cfg (cfg_after_fill cfg) (runner_after_fill cfg)
    distributed r t ht hr
  refine ⟨!Val.beq t (Val.str "IterBasedRunner"), ?_, ?_⟩
  · rw [hec]
    exact dictGet?_set_self _ _ _
  · rw [← Val.beq_str_iff t "IterBasedRunner"]
    cases Val.beq t (Val.str "IterBasedRunner") <;> simp

/-- Witness for C6 at a concrete configuration with an iteration-based
runner. -/
theorem train_model_by_epoch_witness :
    ∃ b : Bool, dictGet? sampleEvalReg.eval_cfg "by_epoch" =
      Option.some (Val.bool b) ∧
      (b = true ↔ ¬ (Val.str "IterBasedRunner") = Val.str "IterBasedRunner") :=
  train_model_by_epoch sampleDatasets sampleCfg false Val.pynone
    (Val.str "IterBasedRunner") sampleEvalReg rfl rfl rfl rfl

theorem eval_stage_new_evaluation_none (cfg : Config) (runner_spec : Dict)
    (distributed : Bool) (h : cfg.evaluation = Option.none) :
    (eval_stage cfg runner_spec distributed).new_evaluation = Option.none := by
  simp only [eval_stage]
  split
  · simp [eval_skip, h]
  · split
    · simp [h]
    · split <;> simp [h]

/-- C7 counterexample: with `validate=true` and an `evaluation` section
present, `train_model` writes the derived `by_epoch` flag into the
`evaluation` section of the configuration (through the alias that the
`cfg.get` call returns), so a field other than `runner` is modified
even though `runner` itself is left untouched. -/
theorem train_model_frame_counterexample :
    (train_model sampleDatasets sampleEvalCfg false true Val.pynone).finalCfg.runner =
      sampleEvalCfg.runner ∧
    (train_model sampleDatasets sampleEvalCfg false true Val.pynone).finalCfg.evaluation ≠
      sampleEvalCfg.evaluation := by
  constructor
  · rfl
  · have h1 : (train_model sampleDatasets sampleEvalCfg false true
        Val.pynone).finalCfg.evaluation = Option.some [("by_epoch", Val.bool false)] := rfl
    rw [h1]
    simp [sampleEvalCfg]

/-- C7 amended: a `train_model` call leaves the configuration unchanged
except for the backward-compatibility default-filling of `runner` and — only
on validating runs whose evaluation block runs with an `evaluation` section
present — the in-place update of that section with the derived `by_epoch`
flag; with `validate=false`, or with no `evaluation` section, the
`evaluation` field too is left unchanged. -/
theorem train_model_frame_amended (dataset : DatasetArg) (cfg : Config)
    (distributed validate : Bool) (timestamp : Val)
    (hload : train_loader_kw_ok cfg.data.train_dataloader = true)
    (hfp : fp16_merge_ok cfg = true) :
    (train_model dataset cfg distributed validate timestamp).finalCfg =
      { cfg with
          runner := Option.some (runner_after_fill cfg),
          evaluation := (eval_out cfg distributed validate).new_evaluation } ∧
    (validate = false →
      (train_model dataset cfg distributed validate timestamp).finalCfg.evaluation =
        cfg.evaluation) ∧
    (cfg.evaluation = Option.none →
      (train_model dataset cfg distributed validate timestamp).finalCfg.evaluation =
        Option.none) := by
  have hsel := select_ok_of_merge_ok (cfg_after_fill cfg) distributed
    (fp16_merge_ok_after_fill cfg hfp)
  obtain ⟨hfc, -, -, -, -, -, -, -⟩ :=
    train_model_stable_fields dataset cfg distributed validate timestamp hload _ hsel
  have hmain : (train_model dataset cfg distributed validate timestamp).finalCfg =
      { cfg with
          runner := Option.some (runner_after_fill cfg),
          evaluation := (eval_out cfg distributed validate).new_evaluation } := by
    rw [hfc, cfg_after_fill_eq]
  refine ⟨hmain, ?_, ?_⟩
  · rintro rfl
    rw [hmain, eval_out_validate_false]
    simp [eval_skip, cfg_after_fill_evaluation]
  · intro hev
    rw [hmain]
    cases validate with
    | false =>
        rw [eval_out_validate_false]
        simp [eval_skip, cfg_after_fill_evaluation, hev]
    | true =>
        rw [eval_out_validate_true]
        simp [eval_stage_new_evaluation_none (cfg_after_fill cfg)
          (runner_after_fill cfg) distributed (by rw [cfg_after_fill_evaluation]; exact hev)]

/-- Witness for the C7 amended claim at a concrete configuration. -/
theorem train_model_frame_amended_witness :
    (train_model sampleDatasets sampleCfg false false Val.pynone).finalCfg =
      { sampleCfg with
          runner := Option.some (runner_after_fill sampleCfg),
          evaluation := (eval_out sampleCfg false false).new_evaluation } :=
  (train_model_frame_amended sampleDatasets sampleCfg false false Val.pynone rfl rfl).1

end MMFlow
